import Mathlib

/-!
Verification of the SeleniumKit session-helper facade (src/seleniumkit/core.py).

The helpers are modelled as state-passing functions over an explicit `Driver`
state.  External driver behaviour (element visibility, screenshot failures,
window handles, ...) is part of the state, so every helper is a total,
executable Lean function translated from the Python source.  Python exceptions
are modelled by `Except PyExc`; the `try/except` blocks of the source become
pattern matches on the `Except` value, with Python's exception-class hierarchy
(every Selenium exception is a subclass of `WebDriverException`, while
`IndexError` is not) reflected by `PyExc.isWebDriverException`.
-/

/-- Python exceptions that appear in core.py, each carrying its message. -/
inductive PyExc where
  | timeoutException (msg : String)
  | noSuchElementException (msg : String)
  | noSuchWindowException (msg : String)
  | noAlertPresentException (msg : String)
  | indexError (msg : String)
  | webDriverException (msg : String)
  | otherException (msg : String)
deriving Repr, DecidableEq

/-- Python class check `isinstance(e, WebDriverException)`: all Selenium
exceptions are subclasses of `WebDriverException`; `IndexError` and generic
exceptions are not. -/
def PyExc.isWebDriverException : PyExc → Bool
  | timeoutException _ => true
  | noSuchElementException _ => true
  | noSuchWindowException _ => true
  | noAlertPresentException _ => true
  | webDriverException _ => true
  | indexError _ => false
  | otherException _ => false

/-- The message carried by an exception (its `str(e)` rendering). -/
def PyExc.msg : PyExc → String
  | timeoutException m => m
  | noSuchElementException m => m
  | noSuchWindowException m => m
  | noAlertPresentException m => m
  | indexError m => m
  | webDriverException m => m
  | otherException m => m

/-- One DOM element of the current page, as the driver reports it.
`visibleAfter = some t` means the element becomes visible `t` seconds after
the wait starts; `none` means it exists but never becomes visible (so a
visibility wait times out).  `value` is the element's current text value,
`options`/`selected` model a `<select>` control, `interactable` governs
whether clear/send_keys succeed. -/
structure Elem where
  visibleAfter : Option Nat
  value : String
  interactable : Bool
  options : List String
  selected : Option String
deriving Repr, DecidableEq

/-- A selector: a (strategy, value) pair such as (By.ID, "q"). -/
abbrev Selector := String × String

/-- The driver-side state a helper call can observe or change.  `page` maps
selectors present in the DOM to elements (an absent selector means the driver
reports "no such element").  `waitCalls` records every invocation of the
driver's visibility wait together with the timeout it was given, and `log`
records every `print` the Python code performs. -/
structure Driver where
  page : List (Selector × Elem)
  window_handles : List String
  active_window : String
  windowWidth : Nat
  windowHeight : Nat
  scrollWidth : Nat
  scrollHeight : Nat
  screenshotFails : Bool
  savedScreenshots : List (String × Nat × Nat)
  log : List String
  waitCalls : List (String × String × Nat)
deriving Repr, DecidableEq

/-- Look an element up by selector in the page. -/
def lookupSel : List (Selector × Elem) → Selector → Option Elem
  | [], _ => none
  | (k, e) :: rest, key => if k = key then some e else lookupSel rest key

/-- Update the element stored at a selector (no-op when absent). -/
def updateSel (f : Elem → Elem) : List (Selector × Elem) → Selector → List (Selector × Elem)
  | [], _ => []
  | (k, e) :: rest, key =>
      if k = key then (k, f e) :: updateSel f rest key
      else (k, e) :: updateSel f rest key

/-- `print(s)`: append a line to the log. -/
def pyPrint (st : Driver) (s : String) : Driver :=
  { st with log := st.log ++ [s] }

/-- `WebDriverWait(driver, timeout).until(EC.visibility_of_element_located((by, value)))`.
Records the call, then: absent selector → the driver reports the element does
not exist (`NoSuchElementException`); present but not visible within
`timeout` seconds → `TimeoutException`; otherwise the element is returned
(modelled by returning its selector as the element reference). -/
def waitVisible (st : Driver) (by_ v : String) (timeout : Nat) :
    Except PyExc Selector × Driver :=
  let st1 := { st with waitCalls := st.waitCalls ++ [(by_, v, timeout)] }
  match lookupSel st1.page (by_, v) with
  | none => (Except.error (PyExc.noSuchElementException "no such element"), st1)
  | some e =>
    match e.visibleAfter with
    | none => (Except.error (PyExc.timeoutException "timed out waiting for visibility"), st1)
    | some t =>
      if t ≤ timeout then (Except.ok (by_, v), st1)
      else (Except.error (PyExc.timeoutException "timed out waiting for visibility"), st1)

/-- The message built by `find_element` on timeout. -/
def timeout_message (timeout : Nat) (by_ v : String) : String :=
  "Timeout: Element not visible after " ++ toString timeout ++
    " seconds for selector (" ++ by_ ++ ", " ++ v ++ ")"

/-- The message built by `find_element` when the element is not found. -/
def notfound_message (by_ v : String) : String :=
  "Element not found for selector (" ++ by_ ++ ", " ++ v ++ ")"

/-- `find_element(driver, by, value, timeout=10)`: wait for visibility; on
`TimeoutException` print and re-raise a `TimeoutException` with a message
naming the timeout and selector; on `NoSuchElementException` print and
re-raise with a message naming the selector. -/
def find_element (st : Driver) (by_ v : String) (timeout : Nat := 10) :
    Except PyExc Selector × Driver :=
  match waitVisible st by_ v timeout with
  | (Except.ok el, st1) => (Except.ok el, st1)
  | (Except.error (PyExc.timeoutException _), st1) =>
      let m := timeout_message timeout by_ v
      (Except.error (PyExc.timeoutException m), pyPrint st1 m)
  | (Except.error (PyExc.noSuchElementException _), st1) =>
      let m := notfound_message by_ v
      (Except.error (PyExc.noSuchElementException m), pyPrint st1 m)
  | (Except.error e, st1) => (Except.error e, st1)

/-- `element.clear()`: fails with a `WebDriverException` when the element is
stale (gone from the page) or not interactable; otherwise empties its value. -/
def elemClear (st : Driver) (el : Selector) : Except PyExc Unit × Driver :=
  match lookupSel st.page el with
  | none => (Except.error (PyExc.webDriverException "stale element reference"), st)
  | some e =>
      if e.interactable then
        (Except.ok (), { st with page := updateSel (fun x => { x with value := "" }) st.page el })
      else (Except.error (PyExc.webDriverException "element not interactable"), st)

/-- `element.send_keys(text)`: appends `text` to the element's value. -/
def elemSendKeys (st : Driver) (el : Selector) (text : String) : Except PyExc Unit × Driver :=
  match lookupSel st.page el with
  | none => (Except.error (PyExc.webDriverException "stale element reference"), st)
  | some e =>
      if e.interactable then
        (Except.ok (), { st with page := updateSel (fun x => { x with value := x.value ++ text }) st.page el })
      else (Except.error (PyExc.webDriverException "element not interactable"), st)

/-- `input_text(driver, by, value, text)`: locate (default timeout), clear,
send keys; on `WebDriverException` print the selector-specific message and
re-raise; on any other exception print the generic message and re-raise. -/
def input_text (st : Driver) (by_ v text : String) : Except PyExc Unit × Driver :=
  let body : Except PyExc Unit × Driver :=
    match find_element st by_ v with
    | (Except.error e, st1) => (Except.error e, st1)
    | (Except.ok el, st1) =>
      match elemClear st1 el with
      | (Except.error e, st2) => (Except.error e, st2)
      | (Except.ok _, st2) => elemSendKeys st2 el text
  match body with
  | (Except.ok u, st1) => (Except.ok u, st1)
  | (Except.error e, st1) =>
      if e.isWebDriverException then
        (Except.error e, pyPrint st1
          ("An error occurred while inputting text into the element with selector (" ++
            by_ ++ ", " ++ v ++ "): " ++ e.msg))
      else
        (Except.error e, pyPrint st1 ("An unexpected error occurred: " ++ e.msg))

/-- `Select(element).select_by_visible_text(option_text)`: picks the option
whose displayed text equals `option_text` exactly; raises
`NoSuchElementException` when no option matches. -/
def select_by_visible_text (st : Driver) (el : Selector) (optionText : String) :
    Except PyExc Unit × Driver :=
  match lookupSel st.page el with
  | none => (Except.error (PyExc.webDriverException "stale element reference"), st)
  | some e =>
      if optionText ∈ e.options then
        (Except.ok (), { st with page := updateSel (fun x => { x with selected := some optionText }) st.page el })
      else
        (Except.error (PyExc.noSuchElementException
          ("Could not locate element with visible text: " ++ optionText)), st)

/-- `select_from_dropdown(driver, by, value, option_text)`: locate (default
timeout), wrap as a `Select`, choose by visible text; on `WebDriverException`
print and re-raise. -/
def select_from_dropdown (st : Driver) (by_ v optionText : String) :
    Except PyExc Unit × Driver :=
  let body : Except PyExc Unit × Driver :=
    match find_element st by_ v with
    | (Except.error e, st1) => (Except.error e, st1)
    | (Except.ok el, st1) => select_by_visible_text st1 el optionText
  match body with
  | (Except.ok u, st1) => (Except.ok u, st1)
  | (Except.error e, st1) =>
      if e.isWebDriverException then
        (Except.error e, pyPrint st1
          ("An error occurred while selecting '" ++ optionText ++
            "' from dropdown with selector (" ++ by_ ++ ", " ++ v ++ "): " ++ e.msg))
      else (Except.error e, st1)

/-- Python list subscription `l[i]` on a list of strings: non-negative indices
address from the front, negative indices address from the back
(`l[i] = l[len(l) + i]`), and anything outside `[-len(l), len(l))` is an
`IndexError` (modelled by `none`). -/
def pyGetItem (l : List String) (i : Int) : Option String :=
  if 0 ≤ i then l.get? i.toNat
  else if (l.length : Int) + i < 0 then none
  else l.get? ((l.length : Int) + i).toNat

/-- `switch_to_window(driver, index=0)`: read `driver.window_handles`, switch
to `windows[index]`; an `IndexError` is re-raised as `NoSuchWindowException`
with a message naming the index. -/
def switch_to_window (st : Driver) (index : Int := 0) : Except PyExc Unit × Driver :=
  match pyGetItem st.window_handles index with
  | some h => (Except.ok (), { st with active_window := h })
  | none =>
      (Except.error (PyExc.noSuchWindowException
        ("インデックス " ++ toString index ++ " のウィンドウが見つかりません")), st)

/-- `element.screenshot(file_path)`: raises `WebDriverException` when the
driver's screenshot capability fails; otherwise records the file together
with the current window dimensions. -/
def elemScreenshot (st : Driver) (el : Selector) (path : String) :
    Except PyExc Unit × Driver :=
  match lookupSel st.page el with
  | none => (Except.error (PyExc.webDriverException "stale element reference"), st)
  | some _ =>
      if st.screenshotFails then
        (Except.error (PyExc.webDriverException "screenshot failed"), st)
      else
        (Except.ok (), { st with savedScreenshots :=
          st.savedScreenshots ++ [(path, st.windowWidth, st.windowHeight)] })

/-- `take_element_screenshot(driver, by, value, file_path)`: locate (default
timeout) and capture; `NoSuchElementException` is caught and only printed,
and any other `WebDriverException` (timeouts included, being a subclass) is
caught and only printed — no exception leaves this helper. -/
def take_element_screenshot (st : Driver) (by_ v path : String) :
    Except PyExc Unit × Driver :=
  let body : Except PyExc Unit × Driver :=
    match find_element st by_ v with
    | (Except.error e, st1) => (Except.error e, st1)
    | (Except.ok el, st1) => elemScreenshot st1 el path
  match body with
  | (Except.ok u, st1) => (Except.ok u, st1)
  | (Except.error (PyExc.noSuchElementException _), st1) =>
      (Except.ok (), pyPrint st1 ("No element found with " ++ by_ ++ " = " ++ v))
  | (Except.error e, st1) =>
      if e.isWebDriverException then
        (Except.ok (), pyPrint st1 "An error occurred while taking the screenshot.")
      else (Except.error e, st1)

/-- `driver.find_element(by, value)` (the raw driver call, no wait, no
visibility requirement): succeeds when the selector is in the DOM, raises
`NoSuchElementException` otherwise. -/
def driver_find_element (st : Driver) (by_ v : String) : Except PyExc Selector × Driver :=
  match lookupSel st.page (by_, v) with
  | some _ => (Except.ok (by_, v), st)
  | none => (Except.error (PyExc.noSuchElementException "no such element"), st)

/-- `is_element_present(driver, by, value)`: `True` when the raw lookup
succeeds, `False` when it raises `NoSuchElementException`. -/
def is_element_present (st : Driver) (by_ v : String) : Except PyExc Bool × Driver :=
  match driver_find_element st by_ v with
  | (Except.ok _, st1) => (Except.ok true, st1)
  | (Except.error (PyExc.noSuchElementException _), st1) => (Except.ok false, st1)
  | (Except.error e, st1) => (Except.error e, st1)

/-- `driver.save_screenshot(file_path)`: raises `WebDriverException` when the
driver's screenshot capability fails; otherwise records the file together
with the window dimensions in force at capture time. -/
def save_screenshot (st : Driver) (path : String) : Except PyExc Unit × Driver :=
  if st.screenshotFails then
    (Except.error (PyExc.webDriverException "screenshot failed"), st)
  else
    (Except.ok (), { st with savedScreenshots :=
      st.savedScreenshots ++ [(path, st.windowWidth, st.windowHeight)] })

/-- `take_full_page_screenshot(driver, file_path)`: read the original window
size, resize the window to the page's scroll width/height, capture, then
restore the original size; a `WebDriverException` anywhere in that sequence
is printed and re-raised (`raise` on line 295), so a capture failure leaves
the window at the resized dimensions. -/
def take_full_page_screenshot (st : Driver) (path : String) : Except PyExc Unit × Driver :=
  let originalW := st.windowWidth
  let originalH := st.windowHeight
  let requiredW := st.scrollWidth
  let requiredH := st.scrollHeight
  let st1 := { st with windowWidth := requiredW, windowHeight := requiredH }
  match save_screenshot st1 path with
  | (Except.ok _, st2) =>
      (Except.ok (), { st2 with windowWidth := originalW, windowHeight := originalH })
  | (Except.error e, st2) =>
      if e.isWebDriverException then
        (Except.error e, pyPrint st2 "An error occurred while taking the screenshot.")
      else (Except.error e, st2)

/-- The fixed user-agent launch option of `initialize_driver`. -/
def user_agent_option : String :=
  "user-agent=Mozilla/5.0 (Windows NT 10.0; Win64; x64) AppleWebKit/537.36 (KHTML, like Gecko) Chrome/100.0.4896.127 Safari/537.36"

/-- The Chrome launch options assembled by `initialize_driver(headless)`:
`--headless` exactly when requested, then the fixed flags and user agent. -/
def chrome_options_args (headless : Bool) : List String :=
  (if headless then ["--headless"] else []) ++
    ["--no-sandbox", "--disable-dev-shm-usage", "--disable-gpu",
     "--disable-software-rasterizer", user_agent_option]

/-- `initialize_driver(headless=True)`: build the options, launch Chrome with
them (the launch itself is the external `webdriver.Chrome` call, passed in as
`launch`); on success print the fixed success line and return the driver; on
`WebDriverException` print and re-raise; on any other exception print the
generic line and re-raise.  The result pairs the outcome with the lines
printed. -/
def initialize_driver (headless : Bool) (launch : List String → Except PyExc Driver) :
    Except PyExc Driver × List String :=
  match launch (chrome_options_args headless) with
  | Except.ok d => (Except.ok d, ["initialize driver success"])
  | Except.error e =>
      if e.isWebDriverException then
        (Except.error e,
          ["An error occurred while initializing the WebDriver or opening the URL: " ++ e.msg])
      else
        (Except.error e, ["An unexpected error occurred: " ++ e.msg])

/-! ## Shared lemmas and test fixtures -/

/-- Reading back the updated key returns the updated element. -/
theorem lookupSel_updateSel (f : Elem → Elem) (page : List (Selector × Elem)) (k : Selector) :
    lookupSel (updateSel f page k) k = (lookupSel page k).map f := by
  induction page with
  | nil => rfl
  | cons kv rest ih =>
    obtain ⟨k1, e1⟩ := kv
    by_cases hk : k1 = k
    · simp [updateSel, lookupSel, hk]
    · simp [updateSel, lookupSel, hk, ih]

/-- A concrete driver state used by the witness theorems. -/
def baseDriver : Driver :=
  { page := [(("id", "q"), ⟨some 3, "old", true, ["Tokyo", "Osaka"], none⟩)],
    window_handles := ["w0", "w1", "w2"], active_window := "w0",
    windowWidth := 800, windowHeight := 600, scrollWidth := 1920, scrollHeight := 5000,
    screenshotFails := false, savedScreenshots := [], log := [], waitCalls := [] }

/-- `baseDriver` with a failing screenshot capability. -/
def failingShotDriver : Driver :=
  { baseDriver with screenshotFails := true }

/-! ## Claims -/

/-- Claim C7: `is_element_present` returns `true` exactly for selectors whose
element is present in the page at call time, `false` (and no error, and no
state change) for absent ones. -/
theorem C7_is_element_present (st : Driver) (by_ v : String) :
    (∀ e : Elem, lookupSel st.page (by_, v) = some e →
      is_element_present st by_ v = (Except.ok true, st))
    ∧ (lookupSel st.page (by_, v) = none →
      is_element_present st by_ v = (Except.ok false, st)) := by
  constructor
  · intro e he
    simp [is_element_present, driver_find_element, he]
  · intro he
    simp [is_element_present, driver_find_element, he]

/-- Witness for C7 at a concrete page: "id=q" is present, "id=zz" is not. -/
theorem C7_witness :
    is_element_present baseDriver "id" "q" = (Except.ok true, baseDriver)
    ∧ is_element_present baseDriver "id" "zz" = (Except.ok false, baseDriver) :=
  ⟨(C7_is_element_present baseDriver "id" "q").1 ⟨some 3, "old", true, ["Tokyo", "Osaka"], none⟩ rfl,
   (C7_is_element_present baseDriver "id" "zz").2 rfl⟩

/-- Claim C5: `switch_to_window` raises `NoSuchWindowException` for every
index at or past the count of open windows, and for an in-range index it
switches the active target to the window at that position of the
driver-reported handle sequence. -/
theorem C5_switch_to_window_bounds (st : Driver) (i : Int) :
    ((st.window_handles.length : Int) ≤ i →
      switch_to_window st i =
        (Except.error (PyExc.noSuchWindowException
          ("インデックス " ++ toString i ++ " のウィンドウが見つかりません")), st))
    ∧ (∀ h : String, 0 ≤ i → st.window_handles.get? i.toNat = some h →
      switch_to_window st i = (Except.ok (), { st with active_window := h })) := by
  constructor
  · intro hle
    have h0 : (0 : Int) ≤ i := le_trans (by positivity) hle
    have hnone : st.window_handles.get? i.toNat = none := by
      refine List.get?_eq_none.mpr ?_
      omega
    simp only [List.get?_eq_getElem?] at hnone
    simp [switch_to_window, pyGetItem, h0, hnone]
  · intro h h0 hsome
    simp only [List.get?_eq_getElem?] at hsome
    simp [switch_to_window, pyGetItem, h0, hsome]

/-- Witness for C5: on three windows, index 5 raises and index 1 switches. -/
theorem C5_witness :
    switch_to_window baseDriver 5 =
      (Except.error (PyExc.noSuchWindowException
        ("インデックス " ++ toString (5 : Int) ++ " のウィンドウが見つかりません")), baseDriver)
    ∧ switch_to_window baseDriver 1 =
      (Except.ok (), { baseDriver with active_window := "w1" }) :=
  ⟨(C5_switch_to_window_bounds baseDriver 5).1 (by norm_num [baseDriver]),
   (C5_switch_to_window_bounds baseDriver 1).2 "w1" (by norm_num) rfl⟩

/-- Claim C9: negative indices are Python back-references: for
`-count ≤ i < 0`, `switch_to_window` succeeds and activates the window at
position `count + i`; conversely an error is only ever raised when `i` is
outside `[-count, count)`. -/
theorem C9_switch_to_window_negative (st : Driver) (i : Int) :
    (∀ h : String, i < 0 → -(st.window_handles.length : Int) ≤ i →
      st.window_handles.get? ((st.window_handles.length : Int) + i).toNat = some h →
      switch_to_window st i = (Except.ok (), { st with active_window := h }))
    ∧ (∀ e st2, switch_to_window st i = (Except.error e, st2) →
      (st.window_handles.length : Int) ≤ i ∨ i < -(st.window_handles.length : Int)) := by
  constructor
  · intro h hneg hge hsome
    have h0 : ¬ (0 ≤ i) := by omega
    have h1 : ¬ ((st.window_handles.length : Int) + i < 0) := by omega
    simp only [List.get?_eq_getElem?] at hsome
    simp [switch_to_window, pyGetItem, h0, h1, hsome]
  · intro e st2 herr
    by_contra hcon
    push_neg at hcon
    obtain ⟨hlt, hge⟩ := hcon
    rcases le_or_lt 0 i with h0 | h0
    · have hin : i.toNat < st.window_handles.length := by omega
      have hsome := List.get?_eq_get (l := st.window_handles) hin
      simp only [List.get?_eq_getElem?] at hsome
      simp [switch_to_window, pyGetItem, h0, hsome] at herr
    · have h1 : ¬ ((st.window_handles.length : Int) + i < 0) := by omega
      have hin : ((st.window_handles.length : Int) + i).toNat < st.window_handles.length := by
        omega
      have hsome := List.get?_eq_get (l := st.window_handles) hin
      simp only [List.get?_eq_getElem?] at hsome
      simp [switch_to_window, pyGetItem, h0, h1, not_le.mpr h0, hsome] at herr

/-- Witness for C9: on three windows, index -1 activates the last window. -/
theorem C9_witness :
    switch_to_window baseDriver (-1) =
      (Except.ok (), { baseDriver with active_window := "w2" }) :=
  (C9_switch_to_window_negative baseDriver (-1)).1 "w2" (by norm_num)
    (by norm_num [baseDriver]) rfl

/-- Claim C6: `initialize_driver` launches with `--headless` exactly when
requested, always with sandbox, shared memory, GPU and software rasterizer
disabled and the fixed user agent; on a successful launch it logs the fixed
success line and returns the driver handle. -/
theorem C6_initialize_driver_options (headless : Bool)
    (launch : List String → Except PyExc Driver) (d : Driver) :
    (("--headless" ∈ chrome_options_args headless) ↔ headless = true)
    ∧ "--no-sandbox" ∈ chrome_options_args headless
    ∧ "--disable-dev-shm-usage" ∈ chrome_options_args headless
    ∧ "--disable-gpu" ∈ chrome_options_args headless
    ∧ "--disable-software-rasterizer" ∈ chrome_options_args headless
    ∧ user_agent_option ∈ chrome_options_args headless
    ∧ (launch (chrome_options_args headless) = Except.ok d →
      initialize_driver headless launch = (Except.ok d, ["initialize driver success"])) := by
  refine ⟨?_, ?_, ?_, ?_, ?_, ?_, ?_⟩
  · cases headless <;> decide
  · cases headless <;> simp [chrome_options_args]
  · cases headless <;> simp [chrome_options_args]
  · cases headless <;> simp [chrome_options_args]
  · cases headless <;> simp [chrome_options_args]
  · cases headless <;> simp [chrome_options_args]
  · intro h
    simp [initialize_driver, h]

/-- Witness for C6: a launch that succeeds yields the driver and the fixed
success log line. -/
theorem C6_witness :
    initialize_driver true (fun _ => Except.ok baseDriver) =
      (Except.ok baseDriver, ["initialize driver success"]) :=
  (C6_initialize_driver_options true (fun _ => Except.ok baseDriver) baseDriver).2.2.2.2.2.2 rfl

/-- Claim C2: when `take_full_page_screenshot` completes without a driver
error, the window dimensions after the call equal those before it, while the
capture itself was taken at the page's full scroll width/height. -/
theorem C2_full_page_restores_window (st : Driver) (path : String) (r : Unit) (st2 : Driver)
    (h : take_full_page_screenshot st path = (Except.ok r, st2)) :
    st2.windowWidth = st.windowWidth ∧ st2.windowHeight = st.windowHeight ∧
    st2.savedScreenshots = st.savedScreenshots ++ [(path, st.scrollWidth, st.scrollHeight)] := by
  unfold take_full_page_screenshot save_screenshot at h
  by_cases hf : st.screenshotFails <;>
    simp [hf, PyExc.isWebDriverException] at h
  subst h
  simp

/-- Witness for C2: a successful full-page capture on `baseDriver` restores
800 x 600 and records one capture at 1920 x 5000. -/
theorem C2_witness :
    (take_full_page_screenshot baseDriver "full.png").snd.windowWidth = 800
    ∧ (take_full_page_screenshot baseDriver "full.png").snd.windowHeight = 600
    ∧ (take_full_page_screenshot baseDriver "full.png").snd.savedScreenshots =
        [("full.png", 1920, 5000)] := by
  have h := C2_full_page_restores_window baseDriver "full.png" ()
    (take_full_page_screenshot baseDriver "full.png").snd rfl
  exact ⟨h.1, h.2.1, h.2.2⟩

/-- Claim C3: `take_full_page_screenshot` is non-atomic: on `failingShotDriver`
the capture step fails after the resize, the call ends in an error, and the
window is left at the resized 1920 x 5000 instead of the original 800 x 600. -/
theorem C3_capture_failure_leaves_viewport_resized :
    (take_full_page_screenshot failingShotDriver "full.png").fst =
      Except.error (PyExc.webDriverException "screenshot failed")
    ∧ (take_full_page_screenshot failingShotDriver "full.png").snd.windowWidth = 1920
    ∧ (take_full_page_screenshot failingShotDriver "full.png").snd.windowHeight = 5000
    ∧ failingShotDriver.windowWidth = 800
    ∧ failingShotDriver.windowHeight = 600 :=
  ⟨rfl, rfl, rfl, rfl, rfl⟩

/-- Claim C4: when the visibility wait expires, `find_element` raises a
`TimeoutException` whose message names both the timeout and the selector
value; when the driver reports the element does not exist, it raises a
`NoSuchElementException`. -/
theorem C4_locate_failure_modes (st : Driver) (by_ v : String) (timeout : Nat) (e : Elem) :
    ((lookupSel st.page (by_, v) = some e →
      (e.visibleAfter = none ∨ (∃ t, e.visibleAfter = some t ∧ timeout < t)) →
      ((find_element st by_ v timeout).fst =
          Except.error (PyExc.timeoutException (timeout_message timeout by_ v))
        ∧ (∃ a b, timeout_message timeout by_ v = a ++ toString timeout ++ b)
        ∧ (∃ c d, timeout_message timeout by_ v = c ++ v ++ d))))
    ∧ (lookupSel st.page (by_, v) = none →
      (find_element st by_ v timeout).fst =
        Except.error (PyExc.noSuchElementException (notfound_message by_ v))) := by
  constructor
  · intro hlook hvis
    have hfe : (find_element st by_ v timeout).fst =
        Except.error (PyExc.timeoutException (timeout_message timeout by_ v)) := by
      rcases hvis with hnone | ⟨t, ht, hlt⟩
      · simp [find_element, waitVisible, hlook, hnone]
      · have hnle : ¬ (t ≤ timeout) := by omega
        simp [find_element, waitVisible, hlook, ht, hnle]
    refine ⟨hfe,
      ⟨"Timeout: Element not visible after ",
        " seconds for selector (" ++ by_ ++ ", " ++ v ++ ")", ?_⟩,
      ⟨"Timeout: Element not visible after " ++ toString timeout ++
        " seconds for selector (" ++ by_ ++ ", ", ")", ?_⟩⟩ <;>
      simp [timeout_message, String.append_assoc]
  · intro hlook
    simp [find_element, waitVisible, hlook]

/-- Witness for C4: with a 2-second timeout on an element visible only after
3 seconds the call times out with the message naming 2 and "q"; on an absent
selector it raises not-found. -/
theorem C4_witness :
    ((find_element baseDriver "id" "q" 2).fst =
        Except.error (PyExc.timeoutException (timeout_message 2 "id" "q"))
      ∧ (∃ a b, timeout_message 2 "id" "q" = a ++ toString 2 ++ b)
      ∧ (∃ c d, timeout_message 2 "id" "q" = c ++ "q" ++ d))
    ∧ (find_element baseDriver "id" "zz" 10).fst =
      Except.error (PyExc.noSuchElementException (notfound_message "id" "zz")) :=
  ⟨(C4_locate_failure_modes baseDriver "id" "q" 2
      ⟨some 3, "old", true, ["Tokyo", "Osaka"], none⟩).1 rfl
      (Or.inr ⟨3, rfl, by norm_num⟩),
   (C4_locate_failure_modes baseDriver "id" "zz" 10
      ⟨some 3, "old", true, ["Tokyo", "Osaka"], none⟩).2 rfl⟩

/-- A successful `input_text` leaves the located element's value equal to the
text that was typed: the clear step empties it and `send_keys` appends. -/
theorem input_text_ok_value (st : Driver) (by_ v text : String) (st2 : Driver)
    (h : input_text st by_ v text = (Except.ok (), st2)) :
    (lookupSel st2.page (by_, v)).map Elem.value = some text := by
  rcases hl : lookupSel st.page (by_, v) with _ | e
  · simp [input_text, find_element, waitVisible, hl, PyExc.isWebDriverException] at h
  · rcases hv : e.visibleAfter with _ | t
    · simp [input_text, find_element, waitVisible, hl, hv, PyExc.isWebDriverException] at h
    · by_cases hts : t ≤ 10
      · by_cases hint : e.interactable
        · simp [input_text, find_element, waitVisible, elemClear, elemSendKeys,
            hl, hv, hts, hint, lookupSel_updateSel] at h
          subst h
          simp [lookupSel_updateSel, hl]
        · simp [input_text, find_element, waitVisible, elemClear, elemSendKeys,
            hl, hv, hts, hint, PyExc.isWebDriverException] at h
      · simp [input_text, find_element, waitVisible, hl, hv, hts,
          PyExc.isWebDriverException] at h

/-- Claim C8: after a successful `input_text` the element's value equals
exactly the typed text, and a second successful `input_text` with a different
string leaves only the second string. -/
theorem C8_input_text_clear_then_type (st : Driver) (by_ v text : String) (st2 : Driver)
    (h : input_text st by_ v text = (Except.ok (), st2)) :
    (lookupSel st2.page (by_, v)).map Elem.value = some text
    ∧ (∀ text2 st3, input_text st2 by_ v text2 = (Except.ok (), st3) →
      (lookupSel st3.page (by_, v)).map Elem.value = some text2) :=
  ⟨input_text_ok_value st by_ v text st2 h,
   fun text2 st3 h2 => input_text_ok_value st2 by_ v text2 st3 h2⟩

/-- Witness for C8: typing "hello" then "world" into (id, q) on `baseDriver`
leaves the value "world". -/
theorem C8_witness :
    (lookupSel (input_text baseDriver "id" "q" "hello").snd.page ("id", "q")).map Elem.value =
      some "hello"
    ∧ (lookupSel (input_text (input_text baseDriver "id" "q" "hello").snd
        "id" "q" "world").snd.page ("id", "q")).map Elem.value = some "world" :=
  ⟨(C8_input_text_clear_then_type baseDriver "id" "q" "hello"
      (input_text baseDriver "id" "q" "hello").snd rfl).1,
   (C8_input_text_clear_then_type baseDriver "id" "q" "hello"
      (input_text baseDriver "id" "q" "hello").snd rfl).2 "world"
      (input_text (input_text baseDriver "id" "q" "hello").snd "id" "q" "world").snd rfl⟩

/-- Claim C10: each action helper that locates an element internally
(`input_text`, `select_from_dropdown`, `take_element_screenshot`) performs
exactly one visibility wait, always with the fixed default timeout of 10
seconds — the helpers take no timeout argument of their own. -/
theorem C10_internal_locate_uses_default_timeout (st : Driver)
    (by_ v text optionText path : String) :
    (input_text st by_ v text).snd.waitCalls = st.waitCalls ++ [(by_, v, 10)]
    ∧ (select_from_dropdown st by_ v optionText).snd.waitCalls = st.waitCalls ++ [(by_, v, 10)]
    ∧ (take_element_screenshot st by_ v path).snd.waitCalls = st.waitCalls ++ [(by_, v, 10)] := by
  refine ⟨?_, ?_, ?_⟩
  · rcases hl : lookupSel st.page (by_, v) with _ | e
    · simp [input_text, find_element, waitVisible, pyPrint, hl, PyExc.isWebDriverException]
    · rcases hv : e.visibleAfter with _ | t
      · simp [input_text, find_element, waitVisible, pyPrint, hl, hv, PyExc.isWebDriverException]
      · by_cases hts : t ≤ 10
        · by_cases hint : e.interactable <;>
            simp [input_text, find_element, waitVisible, elemClear, elemSendKeys, pyPrint,
              hl, hv, hts, hint, lookupSel_updateSel, PyExc.isWebDriverException]
        · simp [input_text, find_element, waitVisible, pyPrint, hl, hv, hts,
            PyExc.isWebDriverException]
  · rcases hl : lookupSel st.page (by_, v) with _ | e
    · simp [select_from_dropdown, find_element, waitVisible, pyPrint, hl,
        PyExc.isWebDriverException]
    · rcases hv : e.visibleAfter with _ | t
      · simp [select_from_dropdown, find_element, waitVisible, pyPrint, hl, hv,
          PyExc.isWebDriverException]
      · by_cases hts : t ≤ 10
        · by_cases hmem : optionText ∈ e.options <;>
            simp [select_from_dropdown, select_by_visible_text, find_element, waitVisible,
              pyPrint, hl, hv, hts, hmem, lookupSel_updateSel, PyExc.isWebDriverException]
        · simp [select_from_dropdown, find_element, waitVisible, pyPrint, hl, hv, hts,
            PyExc.isWebDriverException]
  · rcases hl : lookupSel st.page (by_, v) with _ | e
    · simp [take_element_screenshot, find_element, waitVisible, pyPrint, hl,
        PyExc.isWebDriverException]
    · rcases hv : e.visibleAfter with _ | t
      · simp [take_element_screenshot, find_element, waitVisible, pyPrint, hl, hv,
          PyExc.isWebDriverException]
      · by_cases hts : t ≤ 10
        · by_cases hss : st.screenshotFails <;>
            simp [take_element_screenshot, elemScreenshot, find_element, waitVisible, pyPrint,
              hl, hv, hts, hss, PyExc.isWebDriverException]
        · simp [take_element_screenshot, find_element, waitVisible, pyPrint, hl, hv, hts,
            PyExc.isWebDriverException]

/-- `take_element_screenshot` swallows every failure its body can raise: the
`NoSuchElementException` clause catches the not-found case and, Selenium
exceptions all being subclasses of `WebDriverException`, the second clause
catches everything else (timeouts and screenshot failures included). -/
theorem take_element_screenshot_swallows (st : Driver) (by_ v path : String) :
    (take_element_screenshot st by_ v path).fst = Except.ok () := by
  rcases hl : lookupSel st.page (by_, v) with _ | e
  · simp [take_element_screenshot, find_element, waitVisible, hl, PyExc.isWebDriverException]
  · rcases hv : e.visibleAfter with _ | t
    · simp [take_element_screenshot, find_element, waitVisible, hl, hv,
        PyExc.isWebDriverException]
    · by_cases hts : t ≤ 10
      · by_cases hss : st.screenshotFails <;>
          simp [take_element_screenshot, elemScreenshot, find_element, waitVisible,
            hl, hv, hts, hss, PyExc.isWebDriverException]
      · simp [take_element_screenshot, find_element, waitVisible, hl, hv, hts,
          PyExc.isWebDriverException]

/-- Counterexample to claim C1: on a driver whose screenshot capability
fails, `take_full_page_screenshot` does NOT swallow the failure — the
`WebDriverException` is re-raised to the caller (line 295 of core.py). -/
theorem C1_counterexample_full_page_reraises :
    (take_full_page_screenshot failingShotDriver "shot.png").fst =
      Except.error (PyExc.webDriverException "screenshot failed") := rfl

/-- Claim C1 as amended: `take_element_screenshot` logs every driver error and
swallows it (no value returned, no error propagated) — shown for each of its
failure modes: element not found, visibility timeout, and screenshot failure —
while `take_full_page_screenshot` logs the failure and re-raises it to the
caller. -/
theorem C1_amended_screenshot_error_policy (st : Driver) (by_ v path fullPath : String) :
    (take_element_screenshot st by_ v path).fst = Except.ok ()
    ∧ (lookupSel st.page (by_, v) = none →
      (take_element_screenshot st by_ v path).snd.log =
        st.log ++ [notfound_message by_ v, "No element found with " ++ by_ ++ " = " ++ v])
    ∧ (∀ e : Elem, lookupSel st.page (by_, v) = some e →
      (e.visibleAfter = none ∨ (∃ t, e.visibleAfter = some t ∧ 10 < t)) →
      (take_element_screenshot st by_ v path).snd.log =
        st.log ++ [timeout_message 10 by_ v, "An error occurred while taking the screenshot."])
    ∧ (∀ e : Elem, ∀ t : Nat, lookupSel st.page (by_, v) = some e → e.visibleAfter = some t →
      t ≤ 10 → st.screenshotFails = true →
      (take_element_screenshot st by_ v path).snd.log =
        st.log ++ ["An error occurred while taking the screenshot."])
    ∧ (st.screenshotFails = true →
      (take_full_page_screenshot st fullPath).fst =
        Except.error (PyExc.webDriverException "screenshot failed")
      ∧ (take_full_page_screenshot st fullPath).snd.log =
        st.log ++ ["An error occurred while taking the screenshot."]) := by
  refine ⟨take_element_screenshot_swallows st by_ v path, ?_, ?_, ?_, ?_⟩
  · intro hl
    simp [take_element_screenshot, find_element, waitVisible, pyPrint, hl,
      PyExc.isWebDriverException]
  · intro e hl hvis
    rcases hvis with hv | ⟨t, hv, hlt⟩
    · simp [take_element_screenshot, find_element, waitVisible, pyPrint, hl, hv,
        PyExc.isWebDriverException]
    · have hnle : ¬ (t ≤ 10) := by omega
      simp [take_element_screenshot, find_element, waitVisible, pyPrint, hl, hv, hnle,
        PyExc.isWebDriverException]
  · intro e t hl hv hts hss
    simp [take_element_screenshot, elemScreenshot, find_element, waitVisible, pyPrint,
      hl, hv, hts, hss, PyExc.isWebDriverException]
  · intro hss
    constructor <;>
      simp [take_full_page_screenshot, save_screenshot, pyPrint, hss,
        PyExc.isWebDriverException]

/-- Witness for C1 (amended): on `failingShotDriver` the element helper
returns successfully while appending the swallow log line (capture-failure
mode on (id, q), not-found mode on (id, zz)), and the full-page helper
propagates the error and appends its log line. -/
theorem C1_witness :
    (take_element_screenshot failingShotDriver "id" "q" "el.png").fst = Except.ok ()
    ∧ (take_element_screenshot failingShotDriver "id" "q" "el.png").snd.log =
        failingShotDriver.log ++ ["An error occurred while taking the screenshot."]
    ∧ (take_element_screenshot failingShotDriver "id" "zz" "el2.png").snd.log =
        failingShotDriver.log ++ [notfound_message "id" "zz",
          "No element found with " ++ "id" ++ " = " ++ "zz"]
    ∧ (take_full_page_screenshot failingShotDriver "fp.png").fst =
        Except.error (PyExc.webDriverException "screenshot failed")
    ∧ (take_full_page_screenshot failingShotDriver "fp.png").snd.log =
        failingShotDriver.log ++ ["An error occurred while taking the screenshot."] :=
  ⟨(C1_amended_screenshot_error_policy failingShotDriver "id" "q" "el.png" "fp.png").1,
   (C1_amended_screenshot_error_policy failingShotDriver "id" "q" "el.png" "fp.png").2.2.2.1
     ⟨some 3, "old", true, ["Tokyo", "Osaka"], none⟩ 3 rfl rfl (by norm_num) rfl,
   (C1_amended_screenshot_error_policy failingShotDriver "id" "zz" "el2.png" "fp.png").2.1 rfl,
   ((C1_amended_screenshot_error_policy failingShotDriver "id" "q" "el.png" "fp.png").2.2.2.2 rfl).1,
   ((C1_amended_screenshot_error_policy failingShotDriver "id" "q" "el.png" "fp.png").2.2.2.2 rfl).2⟩
